import Mathlib

/-!
Shallow embedding of the tokenoptimizer CLI (src/tokenoptimizer/{config,client,cli}.py)
and proofs about its specification claims.

Conventions of the embedding:
* Python strings are Lean `String`s (both sequences of unicode code points;
  `len`/slicing count code points, as does `String.length`/`toList`).
* Python floats are modelled as exact rationals `ℚ`; no claim depends on
  binary rounding of doubles.
* Python ints are `ℤ` (arbitrary precision in both).
* `None`-able values are `Option`s; Python truthiness of a string `s` is
  `s ≠ ""`, of an optional string `some s` with `s ≠ ""`.
* The process environment, filesystem, stdin and the single HTTP exchange are
  explicit fields of a `World` value; functions return their outputs and the
  final config-file state instead of performing I/O.
-/

namespace TO

/-- The whitespace characters stripped by Python `str.strip()` (ASCII range;
the unicode whitespace code points also stripped by Python never occur in any
value this development evaluates). -/
def isPyWs (c : Char) : Bool :=
  c = ' ' || c = '\t' || c = '\n' || c = '\r' || c = '\x0b' || c = '\x0c'

/-- List-level core of Python `str.strip()`: drop whitespace from the front,
then from the back. -/
def stripList (l : List Char) : List Char :=
  ((l.dropWhile isPyWs).reverse.dropWhile isPyWs).reverse

/-- Python `str.strip()` with no argument. -/
def pyStrip (s : String) : String :=
  String.mk (stripList s.toList)

/-- Python truthiness of an optional string (`None` and `""` are falsy). -/
def truthy : Option String → Bool
  | some s => s ≠ ""
  | none => false

/-! ## JSON values

A minimal model of parsed JSON data, as produced by `response.json()`.
Objects are the already-built Python dicts (keys unique, so association-list
lookup is dict lookup). -/

inductive Json where
  | null : Json
  | bool : Bool → Json
  | num : ℚ → Json
  | str : String → Json
  | arr : List Json → Json
  | obj : List (String × Json) → Json

/-- Dictionary lookup on a JSON object; `none` when the value is not an
object or the key is absent. -/
def Json.getKey : Json → String → Option Json
  | .obj kvs, k => kvs.lookup k
  | _, _ => none

/-- Python `str()` rendering of a JSON value, as interpolated into the
error-message f-string.  Exact for strings, `None`, booleans and integers
(the only shapes API error bodies carry); non-integer numbers and containers
are rendered schematically, which no claim exercises. -/
def pyStr : Json → String
  | .null => "None"
  | .bool true => "True"
  | .bool false => "False"
  | .num q => if q.den = 1 then toString q.num else toString q
  | .str s => s
  | .arr _ => "[...]"
  | .obj _ => "..."

/-! ## Configuration store (src/tokenoptimizer/config.py)

The config file is modelled as `Option ConfigFile` (absent / present with
contents and permission mode); the environment variable as `Option String`
(unset / set to the given value). -/

/-- The config file on disk: its full contents and its permission bits. -/
structure ConfigFile where
  contents : String
  mode : Nat
deriving DecidableEq

/-- `ENV_VAR_NAME` from config.py. -/
def ENV_VAR_NAME : String := "TOKENOPTIMIZER_API_KEY"

/-- `get_config_path()`: the fixed path of the config file.  The home
directory is abstracted; only the reported text matters to any claim. -/
def configPathStr : String := "~/.config/tokenoptimizer/config"

/-- `save_api_key(api_key)`: writes the stripped key as the whole file
contents and chmods the file to `0o600`.  (`ensure_config_dir` is the
idempotent directory creation preceding the write; it has no observable
effect in this model.) -/
def save_api_key (api_key : String) : ConfigFile :=
  ⟨pyStrip api_key, 0o600⟩

/-- `load_api_key()`: the environment variable, stripped, when set and
non-empty (Python truthiness); else the stripped file contents when the file
exists; else `none`.  Total, hence never raises. -/
def load_api_key (env : Option String) (file : Option String) : Option String :=
  if truthy env then env.map pyStrip
  else file.map pyStrip

/-- `delete_api_key()`: returns whether a file was deleted, paired with the
resulting file state. -/
def delete_api_key (file : Option ConfigFile) : Bool × Option ConfigFile :=
  match file with
  | some _ => (true, none)
  | none => (false, none)

/-! ## API client (src/tokenoptimizer/client.py) -/

/-- `DEFAULT_MODEL` from client.py. -/
def DEFAULT_MODEL : String := "bear-1"

/-- `API_URL` from client.py. -/
def API_URL : String := "https://api.thetokencompany.com/v1/compress"

/-- `DEFAULT_TIMEOUT` from client.py (seconds). -/
def DEFAULT_TIMEOUT : Int := 60

/-- The `CompressionResult` dataclass (stored fields only; the two derived
properties follow as functions). -/
structure CompressionResult where
  output : String
  output_tokens : Int
  original_input_tokens : Int
  compression_time : ℚ
deriving DecidableEq

/-- `CompressionResult.tokens_saved`. -/
def tokens_saved (r : CompressionResult) : Int :=
  r.original_input_tokens - r.output_tokens

/-- `CompressionResult.compression_ratio`: 0.0 when the original token count
is 0, else `(1 - output_tokens / original_input_tokens) * 100`. -/
def compression_ratio (r : CompressionResult) : ℚ :=
  if r.original_input_tokens = 0 then 0
  else (1 - (r.output_tokens : ℚ) / (r.original_input_tokens : ℚ)) * 100

/-- The typed exceptions `compress` can raise: `ValueError` (local
validation), `AuthenticationError`, `APIError`. -/
inductive CompressError where
  | valueError (msg : String)
  | authError (msg : String)
  | apiError (msg : String)
deriving DecidableEq

/-- Outcome of a Python call: a returned value, a raised typed exception, or
an uncaught structural exception (e.g. `KeyError` on a malformed 2xx body),
which surfaces as an interpreter traceback, not as a typed error. -/
inductive PyResult (α : Type) where
  | ok (a : α)
  | raised (e : CompressError)
  | crash
deriving DecidableEq

/-- What `requests.post` did: one of the three caught transport exceptions,
or an HTTP response with a status code, raw body text, and the result of
`response.json()` on that body (`none` when the body is not valid JSON). -/
inductive HttpOutcome where
  | timeout
  | connectionError
  | requestException (detail : String)
  | response (status : Nat) (text : String) (parsed : Option Json)

/-- The request headers built by `compress`. -/
def buildHeaders (api_key : String) : List (String × String) :=
  [("Content-Type", "application/json"),
   ("Authorization", "Bearer " ++ api_key)]

/-- JSON serialization of an optional int argument: Python `None` becomes
JSON `null` (the key is kept). -/
def optJson : Option Int → Json
  | some n => .num (n : ℚ)
  | none => .null

/-- The JSON request body (`payload`) built by `compress`. -/
def buildPayload (model : String) (text : String) (aggressiveness : ℚ)
    (max_output_tokens min_output_tokens : Option Int) : Json :=
  .obj [("model", .str model),
        ("input", .str text),
        ("compression_settings",
          .obj [("aggressiveness", .num aggressiveness),
                ("max_output_tokens", optJson max_output_tokens),
                ("min_output_tokens", optJson min_output_tokens)])]

/-- `requests.Response.ok`: `False` exactly when `raise_for_status` would
raise, i.e. for `400 ≤ status < 600`. -/
def responseOk (status : Nat) : Prop :=
  ¬ (400 ≤ status ∧ status < 600)

instance (status : Nat) : Decidable (responseOk status) := by
  unfold responseOk
  infer_instance

/-- The `error_msg` computation of the non-ok branch:
`error_data.get("error", \x7b\x7d).get("message", response.text)`, with every
exception inside the `try` (parse failure, `.get` on a non-dict) falling back
to the raw body text. -/
def extractErrorMsg (parsed : Option Json) (text : String) : String :=
  match parsed with
  | some (.obj kvs) =>
    match kvs.lookup "error" with
    | some (.obj kvs2) =>
      match kvs2.lookup "message" with
      | some v => pyStr v
      | none => text
    | some _ => text
    | none => text
  | some _ => text
  | none => text

/-- Field extraction of the 2xx branch: `data["output"]` etc.  A missing
field (`KeyError`) — or a field of the wrong shape, which would make the CLI
crash later — is the uncaught structural failure `none`. -/
def parseSuccess (j : Json) : Option CompressionResult :=
  match j with
  | .obj kvs =>
    match kvs.lookup "output", kvs.lookup "output_tokens",
          kvs.lookup "original_input_tokens", kvs.lookup "compression_time" with
    | some (.str o), some (.num ot), some (.num it), some (.num ct) =>
      if ot.den = 1 ∧ it.den = 1 then some ⟨o, ot.num, it.num, ct⟩ else none
    | _, _, _, _ => none
  | _ => none

/-- The 2xx ("ok") branch of `compress`: JSON-parse the body
(`APIError "Invalid JSON response from API"` on failure), then build the
`CompressionResult` from the required fields. -/
def successStep (parsed : Option Json) : PyResult CompressionResult :=
  match parsed with
  | none => .raised (.apiError "Invalid JSON response from API")
  | some j =>
    match parseSuccess j with
    | some r => .ok r
    | none => .crash

/-- Status-code mapping of `compress` (client.py lines 118-142). -/
def mapResponse (status : Nat) (text : String) (parsed : Option Json) :
    PyResult CompressionResult :=
  if status = 401 then .raised (.authError "Invalid API key")
  else if status = 403 then
    .raised (.authError "API key does not have access to this resource")
  else if ¬ responseOk status then
    .raised (.apiError
      ("API error (" ++ toString status ++ "): " ++ extractErrorMsg parsed text))
  else successStep parsed

/-- `TokenOptimizerClient.compress`.  The first component of the pair is the
JSON body of the HTTP request actually sent (`none` when validation failed
before any network call); the second is the call's outcome. -/
def compress (text : String) (aggressiveness : ℚ)
    (max_output_tokens min_output_tokens : Option Int) (model : String)
    (outcome : HttpOutcome) : Option Json × PyResult CompressionResult :=
  if ¬ (0 ≤ aggressiveness ∧ aggressiveness ≤ 1) then
    (none, .raised (.valueError "Aggressiveness must be between 0.0 and 1.0"))
  else
    (some (buildPayload model text aggressiveness max_output_tokens min_output_tokens),
      match outcome with
      | .timeout => .raised (.apiError "Request timed out")
      | .connectionError => .raised (.apiError "Failed to connect to API")
      | .requestException d => .raised (.apiError ("Request failed: " ++ d))
      | .response s t p => mapResponse s t p)

/-! ## Command-line interface (src/tokenoptimizer/cli.py)

An invocation is modelled after argparse has done its work: the `auth`
dispatch (on `sys.argv[1] == "auth"`) plus the parsed argument record.
Argparse's own failures (unknown flags, exit code 2) are outside the model;
every path below is reachable through a well-formed command line. -/

/-- The parsed arguments of the default (optimize) mode. -/
structure OptArgs where
  prompt : List String
  file : Option String
  aggressiveness : ℚ
  light : Bool
  moderate : Bool
  aggressive : Bool
  maxTokens : Option Int
  minTokens : Option Int
  quiet : Bool
  statsOnly : Bool
  timeout : Int
deriving DecidableEq

/-- The parsed `auth` sub-action (`args.auth_action`); `set` carries the
optional `--key` value. -/
inductive AuthAction where
  | set (key : Option String)
  | showKey
  | delete
  | path
deriving DecidableEq

/-- A parsed process invocation: `auth` (with `none` for a missing
sub-action) or the default optimize mode. -/
inductive Invocation where
  | auth (action : Option AuthAction)
  | optimize (args : OptArgs)
deriving DecidableEq

/-- Reading a file: contents, `FileNotFoundError`, or another `IOError`
carrying its displayed message. -/
inductive FileResult where
  | ok (contents : String)
  | notFound
  | ioError (msg : String)

/-- Everything outside the process that one invocation can observe:
environment variable, config file, stdin, the filesystem, and the outcome of
the single HTTP request (were one to be sent). `inputLine` is the line
`input()` would read during `auth set` (`none` = EOF, an uncaught
`EOFError`). -/
structure World where
  envKey : Option String
  configFile : Option ConfigFile
  stdinData : String
  stdinIsTty : Bool
  inputLine : Option String
  readFile : String → FileResult
  httpOutcome : HttpOutcome

/-- Observable result of a finished process: accumulated stdout and stderr
text, exit code, and the final state of the config file. -/
structure Proc where
  stdout : String
  stderr : String
  exitCode : Nat
  config : Option ConfigFile
deriving DecidableEq

/-- A process run: a normal exit, or an interpreter crash (uncaught
exception, traceback). -/
inductive PResult where
  | exited (p : Proc)
  | crashed
deriving DecidableEq

/-- The `error(message)` helper: one line `error: <message>` on stderr,
exit code 1.  Nothing was written to stdout on any path that reaches it, and
the config file is untouched. -/
def errorExit (w : World) (msg : String) : PResult :=
  .exited ⟨"", "error: " ++ msg ++ "\n", 1, w.configFile⟩

/-- `PRESETS` from cli.py. -/
def PRESETS : List (String × ℚ) :=
  [("light", 0.2), ("moderate", 0.5), ("aggressive", 0.8)]

/-- `PRESETS[name]` (the keys used are always present). -/
def presetD (name : String) : ℚ :=
  (PRESETS.lookup name).getD 0

/-- Python `s[:n]` for `0 ≤ n`. -/
def pySliceTake (s : String) (n : Nat) : String :=
  String.mk (s.toList.take n)

/-- Python `s[-n:]` for `0 < n ≤ len(s)` (the only way it is used). -/
def pySliceLast (s : String) (n : Nat) : String :=
  String.mk (s.toList.drop (s.length - n))

/-- The masking of `auth show` (cli.py lines 69-72). -/
def maskKey (s : String) : String :=
  if s.length > 8 then
    pySliceTake s 4 ++ String.mk (List.replicate (s.length - 8) '*') ++ pySliceLast s 4
  else String.mk (List.replicate s.length '*')

/-- Fixed-point decimal rendering of a rational, modelling Python's
`:.1f` / `:.2f` format (rounding half away from zero; Python rounds the
underlying double half-to-even, a difference no claim observes). -/
def fmtFixed (prec : Nat) (q : ℚ) : String :=
  let scaled : Int := ⌊q * (10 ^ prec : ℚ) + 1/2⌋
  let sign := if scaled < 0 then "-" else ""
  let n := scaled.natAbs
  let fs := toString (n % 10 ^ prec)
  sign ++ toString (n / 10 ^ prec) ++ "." ++
    String.mk (List.replicate (prec - fs.length) '0') ++ fs

/-- The stderr statistics line of `print_stats` (without the `quiet` guard,
which the caller applies). -/
def statsLine (r : CompressionResult) : String :=
  "[" ++ toString r.original_input_tokens ++ " -> " ++ toString r.output_tokens ++
  " tokens (" ++ toString (tokens_saved r) ++ " saved, " ++
  fmtFixed 1 (compression_ratio r) ++ "% reduction) in " ++
  fmtFixed 2 r.compression_time ++ "s]\n"

/-- The five stdout lines of the `--stats-only` branch. -/
def statsOnlyText (r : CompressionResult) : String :=
  "Original tokens: " ++ toString r.original_input_tokens ++ "\n" ++
  "Output tokens: " ++ toString r.output_tokens ++ "\n" ++
  "Tokens saved: " ++ toString (tokens_saved r) ++ "\n" ++
  "Compression ratio: " ++ fmtFixed 1 (compression_ratio r) ++ "%\n" ++
  "Compression time: " ++ fmtFixed 2 r.compression_time ++ "s\n"

/-- Tail of `auth set` once the key value is in hand: the empty check, then
save and report.  `pre` is what was already written to stderr (the
interactive prompt, or nothing when `--key` supplied the value). -/
def authSetProceed (w : World) (pre : String) (api_key : String) : PResult :=
  if api_key = "" then
    .exited ⟨"", pre ++ "error: API key cannot be empty\n", 1, w.configFile⟩
  else
    .exited ⟨"", pre ++ "API key saved to " ++ configPathStr ++ "\n", 0,
      some (save_api_key api_key)⟩

/-- The interactive branch of `auth set`: prompt on stderr, read one line,
strip it.  EOF crashes (`EOFError` is uncaught). -/
def authSetPrompt (w : World) : PResult :=
  match w.inputLine with
  | none => .crashed
  | some l => authSetProceed w "Enter your API key: " (pyStrip l)

/-- Help text printed by the auth argument parser when no sub-action is
given.  The wording is argparse-generated; only that it is non-empty and
goes to stdout matters. -/
def authHelpText : String :=
  "usage: tokenoptimizer auth [-h] action ...\n"

/-- `cmd_auth` (cli.py lines 49-92). -/
def cmd_auth (w : World) : AuthAction → PResult
  | .set key =>
    match key with
    | some k => if k ≠ "" then authSetProceed w "" k else authSetPrompt w
    | none => authSetPrompt w
  | .showKey =>
    match load_api_key w.envKey (w.configFile.map ConfigFile.contents) with
    | some k =>
      if k ≠ "" then
        .exited ⟨"API key: " ++ maskKey k ++ "\n" ++
          "Source: " ++ (if w.envKey.isSome then "environment" else "config file") ++ "\n",
          "", 0, w.configFile⟩
      else
        .exited ⟨"No API key configured\nSet one with: tokenoptimizer auth set\nOr set " ++
          ENV_VAR_NAME ++ " environment variable\n", "", 0, w.configFile⟩
    | none =>
      .exited ⟨"No API key configured\nSet one with: tokenoptimizer auth set\nOr set " ++
        ENV_VAR_NAME ++ " environment variable\n", "", 0, w.configFile⟩
  | .delete =>
    match delete_api_key w.configFile with
    | (true, cfg) => .exited ⟨"", "API key deleted\n", 0, cfg⟩
    | (false, cfg) => .exited ⟨"", "No stored API key found\n", 0, cfg⟩
  | .path =>
    .exited ⟨configPathStr ++ "\n", "", 0, w.configFile⟩

/-- The stdin fallback of input resolution (cli.py lines 114-117). -/
def stdinStep (w : World) : Except String String :=
  if ¬ w.stdinIsTty then .ok w.stdinData
  else .error "No input provided. Use --prompt, --file, or pipe via stdin"

/-- Input-text resolution of `cmd_optimize` (cli.py lines 104-117):
positional prompt words joined by spaces; else a truthy `--file` value read
from disk; else piped stdin; else a fatal error. -/
def getText (w : World) (a : OptArgs) : Except String String :=
  if a.prompt ≠ [] then .ok (String.intercalate " " a.prompt)
  else
    match a.file with
    | some f =>
      if f ≠ "" then
        match w.readFile f with
        | .ok s => .ok s
        | .notFound => .error ("File not found: " ++ f)
        | .ioError m => .error ("Failed to read file: " ++ m)
      else stdinStep w
    | none => stdinStep w

/-- Aggressiveness resolution of `cmd_optimize` (cli.py lines 122-129): the
numeric flag value, overridden by the first of the three preset flags that is
set. -/
def resolveAgg (a : OptArgs) : ℚ :=
  if a.light then presetD "light"
  else if a.moderate then presetD "moderate"
  else if a.aggressive then presetD "aggressive"
  else a.aggressiveness

/-- The missing-credential message of `cmd_optimize`. -/
def noKeyMsg : String :=
  "No API key configured. Run 'tokenoptimizer auth set' or set " ++ ENV_VAR_NAME

/-- `cmd_optimize` (cli.py lines 95-159). -/
def cmd_optimize (w : World) (a : OptArgs) : PResult :=
  match load_api_key w.envKey (w.configFile.map ConfigFile.contents) with
  | none => errorExit w noKeyMsg
  | some k =>
    if k = "" then errorExit w noKeyMsg
    else
      match getText w a with
      | .error m => errorExit w m
      | .ok text =>
        if pyStrip text = "" then errorExit w "Input text is empty"
        else
          match (compress text (resolveAgg a) a.maxTokens a.minTokens DEFAULT_MODEL
              w.httpOutcome).2 with
          | .raised (.authError m) => errorExit w ("Authentication failed: " ++ m)
          | .raised (.apiError m) => errorExit w m
          | .raised (.valueError m) => errorExit w m
          | .crash => .crashed
          | .ok r =>
            if a.statsOnly then
              .exited ⟨statsOnlyText r, "", 0, w.configFile⟩
            else
              .exited ⟨r.output ++ "\n", (if a.quiet then "" else statsLine r), 0,
                w.configFile⟩

/-- `main` (cli.py lines 316-329): dispatch on the `auth` subcommand; a
missing auth sub-action prints the auth help to stdout and returns 1. -/
def main (w : World) : Invocation → PResult
  | .auth none => .exited ⟨authHelpText, "", 1, w.configFile⟩
  | .auth (some act) => cmd_auth w act
  | .optimize args => cmd_optimize w args

/-! ## Concrete sample data for witnesses and counterexamples -/

/-- The parsed arguments of a bare `tokenoptimizer` invocation (all flags at
their argparse defaults). -/
def defaultArgs : OptArgs :=
  ⟨[], none, 0.5, false, false, false, none, none, false, false, 60⟩

/-- A quiescent world: nothing configured, terminal stdin, empty filesystem,
HTTP would time out. -/
def w0 : World :=
  ⟨none, none, "", true, none, fun _ => .notFound, .timeout⟩

/-- A world whose environment variable is a single space while the config
file stores a real credential. -/
def w9 : World :=
  ⟨some " ", some ⟨"stored-key", 0o600⟩, "", true, none, fun _ => .notFound, .timeout⟩

/-! ## Lemmas about stripping -/

/-- The head surviving a `dropWhile` does not satisfy the predicate. -/
theorem head_of_dropWhile (p : Char → Bool) :
    ∀ (l : List Char) (x : Char), (l.dropWhile p).head? = some x → p x = false := by
  intro l
  induction l with
  | nil => intro x hx; simp at hx
  | cons a t ih =>
    intro x hx
    rw [List.dropWhile_cons] at hx
    cases hpa : p a with
    | true => rw [hpa] at hx; simp at hx; exact ih x hx
    | false =>
      rw [hpa] at hx
      simp at hx
      rw [← hx]
      exact hpa

/-- A list whose head does not satisfy the predicate is unchanged by
`dropWhile`. -/
theorem dropWhile_eq_self_of_head (p : Char → Bool) (l : List Char)
    (h : ∀ x, l.head? = some x → p x = false) : l.dropWhile p = l := by
  cases l with
  | nil => rfl
  | cons a t =>
    have ha : p a = false := h a rfl
    simp [List.dropWhile_cons, ha]

/-- Python stripping is idempotent (list level). -/
theorem stripList_idem (l : List Char) : stripList (stripList l) = stripList l := by
  unfold stripList
  set A := l.dropWhile isPyWs with hA
  set B := A.reverse.dropWhile isPyWs with hB
  have hBdrop : B.dropWhile isPyWs = B := by
    apply dropWhile_eq_self_of_head
    intro x hx
    exact head_of_dropWhile isPyWs A.reverse x (by rw [← hB]; exact hx)
  have hMhead : ∀ x, B.reverse.head? = some x → isPyWs x = false := by
    intro x hx
    have hsplit : A.reverse.takeWhile isPyWs ++ B = A.reverse := by
      rw [hB]; exact List.takeWhile_append_dropWhile _ _
    have hA2 : A = B.reverse ++ (A.reverse.takeWhile isPyWs).reverse := by
      have h1 := congrArg List.reverse hsplit
      rw [List.reverse_append, List.reverse_reverse] at h1
      exact h1.symm
    have hAhead : A.head? = some x := by
      rw [hA2]
      cases hBr : B.reverse with
      | nil => rw [hBr] at hx; simp at hx
      | cons c cs =>
        rw [hBr] at hx
        simp at hx
        simp [hx]
    exact head_of_dropWhile isPyWs l x (by rw [← hA]; exact hAhead)
  have h1 : B.reverse.dropWhile isPyWs = B.reverse :=
    dropWhile_eq_self_of_head _ _ hMhead
  rw [h1, List.reverse_reverse, hBdrop]

/-- Python stripping is idempotent. -/
theorem pyStrip_idem (s : String) : pyStrip (pyStrip s) = pyStrip s := by
  unfold pyStrip
  have h : (String.mk (stripList s.toList)).toList = stripList s.toList := rfl
  rw [h, stripList_idem]

/-! ## Claim theorems -/

/-- C4: for every CompressionResult, `tokens_saved` is the difference of the
stored token counts and `compression_ratio` is `(1 - output/original) * 100`
when the original count is nonzero and `0.0` when it is zero (no
division-by-zero failure); in particular 100 original and 60 output tokens
give ratio 40.0 and 40 tokens saved. -/
theorem claim_C4 : ∀ r : CompressionResult,
    tokens_saved r = r.original_input_tokens - r.output_tokens ∧
    (r.original_input_tokens ≠ 0 →
      compression_ratio r =
        (1 - (r.output_tokens : ℚ) / (r.original_input_tokens : ℚ)) * 100) ∧
    (r.original_input_tokens = 0 → compression_ratio r = 0) ∧
    compression_ratio ⟨"x", 60, 100, 0⟩ = 40 ∧
    tokens_saved ⟨"x", 60, 100, 0⟩ = 40 := by
  intro r
  refine ⟨rfl, ?_, ?_, ?_, rfl⟩
  · intro h
    simp [compression_ratio, h]
  · intro h
    simp [compression_ratio, h]
  · norm_num [compression_ratio]

/-- Witness for C4 at original = 100, output = 60. -/
theorem claim_C4_witness :
    compression_ratio ⟨"x", 60, 100, 0⟩ = (1 - (60 : ℚ) / (100 : ℚ)) * 100 :=
  (claim_C4 ⟨"x", 60, 100, 0⟩).2.1 (by norm_num)

/-- C5: `load_api_key` returns the stripped environment value when the
variable is set and non-empty, else the stripped config-file contents when
the file exists, else `none`; the environment wins whenever both are
non-empty.  (The function is total, so it never raises.) -/
theorem claim_C5 : ∀ (env file : Option String),
    (∀ e, env = some e → e ≠ "" → load_api_key env file = some (pyStrip e)) ∧
    ((env = none ∨ env = some "") →
      ∀ c, file = some c → load_api_key env file = some (pyStrip c)) ∧
    ((env = none ∨ env = some "") → file = none → load_api_key env file = none) ∧
    (∀ e c, env = some e → e ≠ "" → file = some c → c ≠ "" →
      load_api_key env file = some (pyStrip e)) := by
  intro env file
  refine ⟨?_, ?_, ?_, ?_⟩
  · intro e he hne
    subst he
    simp [load_api_key, truthy, hne]
  · rintro (he | he) c hc <;> subst he <;> subst hc <;>
      simp [load_api_key, truthy]
  · rintro (he | he) hf <;> subst he <;> subst hf <;>
      simp [load_api_key, truthy]
  · intro e c he hne hc hnc
    subst he
    simp [load_api_key, truthy, hne]

/-- Witness for C5: environment `" k1 "` beats stored file `"k2"` and is
returned stripped. -/
theorem claim_C5_witness :
    load_api_key (some " k1 ") (some "k2") = some "k1" := by
  have h := (claim_C5 (some " k1 ") (some "k2")).1 " k1 " rfl (by decide)
  rw [h]
  decide

/-- C7: saving any credential and loading it back (environment unset)
returns exactly the whitespace-trimmed value, and the saved file's
permission bits are `0o600` (owner read/write only). -/
theorem claim_C7 : ∀ v : String,
    load_api_key none (some (save_api_key v).contents) = some (pyStrip v) ∧
    (save_api_key v).mode = 0o600 := by
  intro v
  constructor
  · show load_api_key none (some (pyStrip v)) = some (pyStrip v)
    simp [load_api_key, truthy, pyStrip_idem]
  · rfl

/-- C8: the masked display of a credential longer than 8 characters is its
first 4 characters, then one `*` per middle character, then its last 4; a
credential of 8 or fewer characters masks to one `*` per character. -/
theorem claim_C8 : ∀ s : String,
    (8 < s.length →
      maskKey s = String.mk (s.toList.take 4) ++
        String.mk (List.replicate (s.length - 8) '*') ++
        String.mk (s.toList.drop (s.length - 4))) ∧
    (s.length ≤ 8 → maskKey s = String.mk (List.replicate s.length '*')) := by
  intro s
  constructor
  · intro h
    unfold maskKey pySliceTake pySliceLast
    rw [if_pos h]
  · intro h
    unfold maskKey
    rw [if_neg (by omega)]

/-- Witness for C8: a 17-character key masks to first 4 + 9 stars + last 4;
a 5-character key masks to 5 stars. -/
theorem claim_C8_witness :
    maskKey "sk-1234567890abcd" = "sk-1" ++ "*********" ++ "abcd" ∧
    maskKey "short" = "*****" := by
  constructor
  · rw [(claim_C8 "sk-1234567890abcd").1 (by decide)]
    decide
  · rw [(claim_C8 "short").2 (by decide)]
    decide

/-- The 2xx branch never raises a `ValueError`. -/
theorem successStep_not_valueError (parsed : Option Json) (m : String) :
    successStep parsed ≠ .raised (.valueError m) := by
  unfold successStep
  cases parsed with
  | none => simp
  | some j => cases h : parseSuccess j <;> simp [h]

/-- The status-mapping branch never raises a `ValueError`. -/
theorem mapResponse_not_valueError (s : Nat) (t : String) (p : Option Json) (m : String) :
    mapResponse s t p ≠ .raised (.valueError m) := by
  unfold mapResponse
  split
  · simp
  · split
    · simp
    · split
      · simp
      · exact successStep_not_valueError p m

/-- C6: `compress` raises the `ValueError`
"Aggressiveness must be between 0.0 and 1.0" exactly when the aggressiveness
is outside `[0, 1]`, and in that case no request body is built (no network
call); values inside the closed interval, its endpoints included, never
produce this error. -/
theorem claim_C6 : ∀ (text : String) (agg : ℚ) (mx mn : Option Int)
    (model : String) (outcome : HttpOutcome),
    ((compress text agg mx mn model outcome).2 =
        .raised (.valueError "Aggressiveness must be between 0.0 and 1.0") ↔
      (agg < 0 ∨ 1 < agg)) ∧
    ((agg < 0 ∨ 1 < agg) → (compress text agg mx mn model outcome).1 = none) ∧
    (0 ≤ agg ∧ agg ≤ 1 →
      ∀ m, (compress text agg mx mn model outcome).2 ≠ .raised (.valueError m)) := by
  intro text agg mx mn model outcome
  have hiff : ¬(0 ≤ agg ∧ agg ≤ 1) ↔ (agg < 0 ∨ 1 < agg) := by
    rw [not_and_or, not_le, not_le]
  by_cases h : 0 ≤ agg ∧ agg ≤ 1
  · have hsnd : ∀ m, (compress text agg mx mn model outcome).2 ≠
        .raised (.valueError m) := by
      intro m
      unfold compress
      rw [if_neg (not_not_intro h)]
      cases outcome with
      | timeout => simp
      | connectionError => simp
      | requestException d => simp
      | response s t p => exact mapResponse_not_valueError s t p m
    refine ⟨⟨fun hv => absurd hv (hsnd _), fun hout => absurd h (hiff.mpr hout)⟩,
      fun hout => absurd h (hiff.mpr hout), fun _ m => hsnd m⟩
  · have hc : compress text agg mx mn model outcome =
        (none, .raised (.valueError "Aggressiveness must be between 0.0 and 1.0")) := by
      unfold compress
      rw [if_pos h]
    refine ⟨⟨fun _ => hiff.mp h, fun _ => by rw [hc]⟩,
      fun _ => by rw [hc], fun hin _ => absurd hin h⟩

/-- Witness for C6: aggressiveness 1.5 raises the validation error with no
request body built. -/
theorem claim_C6_witness :
    (compress "t" (3/2 : ℚ) none none "bear-1" .timeout).2 =
      .raised (.valueError "Aggressiveness must be between 0.0 and 1.0") ∧
    (compress "t" (3/2 : ℚ) none none "bear-1" .timeout).1 = none := by
  have h := claim_C6 "t" (3/2 : ℚ) none none "bear-1" .timeout
  exact ⟨h.1.mpr (Or.inr (by norm_num)), h.2.1 (Or.inr (by norm_num))⟩

/-- C10: whenever `compress` sends a request, the body's
`compression_settings` object carries both the `max_output_tokens` and the
`min_output_tokens` key, and an absent argument is serialized as JSON `null`
rather than the key being dropped. -/
theorem claim_C10 : ∀ (text : String) (agg : ℚ) (mx mn : Option Int)
    (model : String) (outcome : HttpOutcome) (body : Json),
    (compress text agg mx mn model outcome).1 = some body →
    ((body.getKey "compression_settings").bind
        (fun j => j.getKey "max_output_tokens") = some (optJson mx) ∧
     (body.getKey "compression_settings").bind
        (fun j => j.getKey "min_output_tokens") = some (optJson mn) ∧
     (mx = none → optJson mx = .null) ∧
     (mn = none → optJson mn = .null)) := by
  intro text agg mx mn model outcome body h
  unfold compress at h
  split at h
  · simp at h
  · simp only [Option.some.injEq] at h
    subst h
    refine ⟨?_, ?_, fun hm => by rw [hm]; rfl, fun hm => by rw [hm]; rfl⟩ <;>
      simp [buildPayload, Json.getKey, List.lookup]

/-- Witness for C10: with both token arguments absent, both keys are present
with value `null`. -/
theorem claim_C10_witness :
    ((buildPayload "bear-1" "hi" (1/2 : ℚ) none none).getKey
        "compression_settings").bind
      (fun j => j.getKey "max_output_tokens") = some (optJson none) ∧
    optJson (none : Option Int) = .null := by
  have h := claim_C10 "hi" (1/2 : ℚ) none none "bear-1" .timeout
      (buildPayload "bear-1" "hi" (1/2 : ℚ) none none)
      (by unfold compress; rw [if_neg (not_not_intro (by norm_num))])
  exact ⟨h.1, h.2.2.1 rfl⟩

/-- C9: an environment variable that is non-empty but all whitespace makes
`load_api_key` return the empty string — no fall-back to the config file, no
absent value — and the CLI then fails as if no credential were configured,
hiding any valid credential stored in the file. -/
theorem claim_C9 : ∀ (w : World) (a : OptArgs) (e : String),
    w.envKey = some e → e ≠ "" → pyStrip e = "" →
    load_api_key w.envKey (w.configFile.map ConfigFile.contents) = some "" ∧
    main w (.optimize a) =
      .exited ⟨"", "error: " ++ noKeyMsg ++ "\n", 1, w.configFile⟩ := by
  intro w a e he hne hstrip
  have hload : load_api_key w.envKey (w.configFile.map ConfigFile.contents) =
      some "" := by
    rw [he]
    simp [load_api_key, truthy, hne, hstrip]
  refine ⟨hload, ?_⟩
  show cmd_optimize w a = _
  unfold cmd_optimize
  rw [hload]
  rfl

/-- Witness for C9: environment `" "` (one space) masks the stored
credential `"stored-key"`. -/
theorem claim_C9_witness :
    load_api_key (World.envKey w9) (Option.map ConfigFile.contents (World.configFile w9)) =
      some "" ∧
    main w9 (.optimize defaultArgs) =
      .exited ⟨"", "error: " ++ noKeyMsg ++ "\n", 1, World.configFile w9⟩ :=
  claim_C9 w9 defaultArgs " " rfl (by decide) (by decide)

/-- C1 (amended): for an HTTP response, status 401 raises the Authentication
error "Invalid API key" and 403 the Authentication error "API key does not
have access to this resource"; every other status for which
`requests.Response.ok` is false — i.e. in 400..599 — raises the API error
"API error (status): message", the message being the body's `error.message`
field when the body parses as a JSON object carrying it, else the raw body
text; every status outside 400..599 (the 3xx range included, not just
200..299) proceeds to success-body parsing. -/
theorem claim_C1_amended : ∀ (text : String) (agg : ℚ) (mx mn : Option Int)
    (model : String) (s : Nat) (t : String) (p : Option Json),
    0 ≤ agg → agg ≤ 1 →
    ((compress text agg mx mn model (.response s t p)).2 = mapResponse s t p) ∧
    (s = 401 → mapResponse s t p = .raised (.authError "Invalid API key")) ∧
    (s = 403 → mapResponse s t p =
      .raised (.authError "API key does not have access to this resource")) ∧
    (s ≠ 401 → s ≠ 403 → 400 ≤ s → s < 600 →
      mapResponse s t p = .raised (.apiError
        ("API error (" ++ toString s ++ "): " ++ extractErrorMsg p t))) ∧
    (¬(400 ≤ s ∧ s < 600) → mapResponse s t p = successStep p) ∧
    (∀ m kvs kvs2, p = some (.obj kvs) →
      kvs.lookup "error" = some (.obj kvs2) →
      kvs2.lookup "message" = some (.str m) → extractErrorMsg p t = m) ∧
    (p = none → extractErrorMsg p t = t) := by
  intro text agg mx mn model s t p h0 h1
  refine ⟨?_, ?_, ?_, ?_, ?_, ?_, ?_⟩
  · unfold compress
    rw [if_neg (not_not_intro ⟨h0, h1⟩)]
  · intro hs
    subst hs
    rfl
  · intro hs
    subst hs
    rfl
  · intro hn1 hn3 h4 h6
    unfold mapResponse
    rw [if_neg hn1, if_neg hn3,
      if_pos (show ¬ responseOk s from not_not_intro ⟨h4, h6⟩)]
  · intro hok
    have hn1 : s ≠ 401 := by rintro rfl; exact hok ⟨by norm_num, by norm_num⟩
    have hn3 : s ≠ 403 := by rintro rfl; exact hok ⟨by norm_num, by norm_num⟩
    unfold mapResponse
    rw [if_neg hn1, if_neg hn3,
      if_neg (show ¬¬ responseOk s from not_not_intro hok)]
  · intro m kvs kvs2 hp hl1 hl2
    subst hp
    simp only [extractErrorMsg, hl1, hl2, pyStr]
  · intro hp
    subst hp
    rfl

/-- Witness for C1: status 500 with body `error.message = "overloaded"`
raises the API error "API error (500): overloaded". -/
theorem claim_C1_amended_witness :
    (compress "hello" (1/2 : ℚ) none none "bear-1"
        (.response 500 "raw" (some (.obj [("error",
          .obj [("message", .str "overloaded")])])))).2 =
      .raised (.apiError "API error (500): overloaded") := by
  have h := claim_C1_amended "hello" (1/2 : ℚ) none none "bear-1" 500 "raw"
      (some (.obj [("error", .obj [("message", .str "overloaded")])]))
      (by norm_num) (by norm_num)
  rw [h.1, h.2.2.2.1 (by decide) (by decide) (by norm_num) (by norm_num),
    h.2.2.2.2.2.1 "overloaded" _ _ rfl rfl rfl]
  decide

/-- Counterexample to C1 as stated: status 300 is outside 200..299, yet
`compress` does not raise an API error there — `response.ok` is true for
3xx, so the body is parsed as a success and a result is returned. -/
theorem claim_C1_counterexample :
    (compress "hello" (1/2 : ℚ) none none "bear-1"
        (.response 300 "body" (some (.obj [("output", .str "ok"),
          ("output_tokens", .num 5), ("original_input_tokens", .num 10),
          ("compression_time", .num 1)])))).2 = .ok ⟨"ok", 5, 10, 1⟩ ∧
    (compress "hello" (1/2 : ℚ) none none "bear-1"
        (.response 300 "body" (some (.obj [("output", .str "ok"),
          ("output_tokens", .num 5), ("original_input_tokens", .num 10),
          ("compression_time", .num 1)])))).2 ≠
      .raised (.apiError "API error (300): body") := by
  have h : (compress "hello" (1/2 : ℚ) none none "bear-1"
      (.response 300 "body" (some (.obj [("output", .str "ok"),
        ("output_tokens", .num 5), ("original_input_tokens", .num 10),
        ("compression_time", .num 1)])))).2 = .ok ⟨"ok", 5, 10, 1⟩ := by
    unfold compress
    rw [if_neg (not_not_intro ⟨by norm_num, by norm_num⟩)]
    rfl
  exact ⟨h, by rw [h]; exact fun hc => PyResult.noConfusion hc⟩

/-- C3 (amended): in `auth set`, an interactively prompted credential is
trimmed before the emptiness check, and an empty trimmed value aborts with a
fatal error persisting nothing; but an explicit `--key` value is checked
untrimmed — only a literally empty `--key` falls through to the prompt — so
a whitespace-only `--key` value passes the check and is persisted (the store
trims on write, leaving an empty credential file).  On every successful
path the value is saved via the configuration store (trimmed, mode 0o600)
and the save path is reported. -/
theorem claim_C3_amended : ∀ (w : World),
    (∀ k, k ≠ "" →
      main w (.auth (some (.set (some k)))) =
        .exited ⟨"", "API key saved to " ++ configPathStr ++ "\n", 0,
          some ⟨pyStrip k, 0o600⟩⟩) ∧
    (∀ key l, (key = none ∨ key = some "") → w.inputLine = some l →
      (pyStrip l = "" →
        main w (.auth (some (.set key))) =
          .exited ⟨"", "Enter your API key: error: API key cannot be empty\n", 1,
            w.configFile⟩) ∧
      (pyStrip l ≠ "" →
        main w (.auth (some (.set key))) =
          .exited ⟨"", "Enter your API key: API key saved to " ++ configPathStr ++ "\n",
            0, some ⟨pyStrip l, 0o600⟩⟩)) := by
  intro w
  constructor
  · intro k hk
    show cmd_auth w (.set (some k)) = _
    simp only [cmd_auth]
    rw [if_pos hk]
    unfold authSetProceed
    rw [if_neg hk]
    rfl
  · intro key l hkey hline
    have hprompt : main w (.auth (some (.set key))) = authSetPrompt w := by
      rcases hkey with rfl | rfl
      · simp only [main, cmd_auth]
      · simp only [main, cmd_auth]
        rw [if_neg (by simp)]
    have hstep : authSetPrompt w =
        authSetProceed w "Enter your API key: " (pyStrip l) := by
      unfold authSetPrompt
      rw [hline]
    constructor
    · intro hempty
      rw [hprompt, hstep]
      unfold authSetProceed
      rw [if_pos hempty]
      rfl
    · intro hne
      rw [hprompt, hstep]
      unfold authSetProceed
      rw [if_neg hne]
      have hsave : save_api_key (pyStrip l) = ⟨pyStrip l, 0o600⟩ := by
        unfold save_api_key
        rw [pyStrip_idem]
      rw [hsave]
      rfl

/-- Witness for C3: prompting with input `"  k  "` saves the trimmed key. -/
theorem claim_C3_amended_witness :
    main ⟨none, none, "", true, some "  k  ", fun _ => .notFound, .timeout⟩
        (.auth (some (.set none))) =
      .exited ⟨"", "Enter your API key: API key saved to " ++ configPathStr ++ "\n",
        0, some ⟨pyStrip "  k  ", 0o600⟩⟩ :=
  ((claim_C3_amended ⟨none, none, "", true, some "  k  ", fun _ => .notFound,
      .timeout⟩).2 none "  k  " (Or.inl rfl) rfl).2 (by decide)

/-- Counterexample to C3 as stated: `--key "   "` is empty after trimming,
yet the command does not fail — it saves (the store trims, writing an empty
file) and reports the path with exit code 0. -/
theorem claim_C3_counterexample :
    pyStrip "   " = "" ∧
    main w0 (.auth (some (.set (some "   ")))) =
      .exited ⟨"", "API key saved to " ++ configPathStr ++ "\n", 0,
        some ⟨"", 0o600⟩⟩ := by
  exact ⟨by decide, by decide⟩

/-- Every `error()` call exits with empty stdout and a single
`error: <message>` report on stderr. -/
theorem errorExit_shape (w : World) (msg : String) (p : Proc)
    (h : errorExit w msg = .exited p) :
    p.stdout = "" ∧ ∃ m, p.stderr = "error: " ++ m ++ "\n" ∨
      p.stderr = "Enter your API key: error: " ++ m ++ "\n" := by
  unfold errorExit at h
  simp only [PResult.exited.injEq] at h
  subst h
  exact ⟨rfl, msg, Or.inl rfl⟩

/-- The tail of `auth set`, when it exits 1, wrote the empty-key error after
whatever prompt text preceded it. -/
theorem authSetProceed_shape (w : World) (pre api_key : String) (p : Proc)
    (h : authSetProceed w pre api_key = .exited p) (hcode : p.exitCode = 1) :
    p.stdout = "" ∧ p.stderr = pre ++ "error: API key cannot be empty\n" := by
  unfold authSetProceed at h
  split at h
  · simp only [PResult.exited.injEq] at h
    subst h
    exact ⟨rfl, rfl⟩
  · simp only [PResult.exited.injEq] at h
    subst h
    simp at hcode

/-- The interactive `auth set` path, when it exits 1, shows the prompt and
the error report on one stderr line. -/
theorem authSetPrompt_shape (w : World) (p : Proc)
    (h : authSetPrompt w = .exited p) (hcode : p.exitCode = 1) :
    p.stdout = "" ∧ ∃ m, p.stderr = "error: " ++ m ++ "\n" ∨
      p.stderr = "Enter your API key: error: " ++ m ++ "\n" := by
  unfold authSetPrompt at h
  split at h
  · exact PResult.noConfusion h
  · have hs := authSetProceed_shape w _ _ p h hcode
    refine ⟨hs.1, "API key cannot be empty", Or.inr ?_⟩
    rw [hs.2]
    decide

/-- C2 (amended): every invocation that exits with code 1 — except `auth`
with a missing sub-action, which prints usage to stdout and writes nothing
to stderr — writes nothing to stdout and exactly one error report
`error: <message>` (newline-terminated) to stderr; in the interactive
`auth set` path the prompt text precedes the report on the same stderr
line. -/
theorem claim_C2_amended : ∀ (w : World) (inv : Invocation) (p : Proc),
    main w inv = .exited p → p.exitCode = 1 → inv ≠ .auth none →
    p.stdout = "" ∧ ∃ m, p.stderr = "error: " ++ m ++ "\n" ∨
      p.stderr = "Enter your API key: error: " ++ m ++ "\n" := by
  intro w inv p h hcode hne
  cases inv with
  | auth action =>
    cases action with
    | none => exact absurd rfl hne
    | some act =>
      cases act with
      | set key =>
        cases key with
        | some k =>
          replace h : (if k ≠ "" then authSetProceed w "" k else authSetPrompt w) =
              .exited p := h
          split at h
          · rename_i hk
            unfold authSetProceed at h
            rw [if_neg hk] at h
            simp only [PResult.exited.injEq] at h
            subst h
            simp at hcode
          · exact authSetPrompt_shape w p h hcode
        | none =>
          replace h : authSetPrompt w = .exited p := h
          exact authSetPrompt_shape w p h hcode
      | showKey =>
        replace h : cmd_auth w .showKey = .exited p := h
        simp only [cmd_auth] at h
        split at h
        · split at h
          · simp only [PResult.exited.injEq] at h
            subst h
            simp at hcode
          · simp only [PResult.exited.injEq] at h
            subst h
            simp at hcode
        · simp only [PResult.exited.injEq] at h
          subst h
          simp at hcode
      | delete =>
        replace h : cmd_auth w .delete = .exited p := h
        simp only [cmd_auth] at h
        split at h <;> (simp only [PResult.exited.injEq] at h; subst h; simp at hcode)
      | path =>
        replace h : cmd_auth w .path = .exited p := h
        simp only [cmd_auth] at h
        simp only [PResult.exited.injEq] at h
        subst h
        simp at hcode
  | optimize a =>
    replace h : cmd_optimize w a = .exited p := h
    unfold cmd_optimize at h
    split at h
    · exact errorExit_shape w _ p h
    · split at h
      · exact errorExit_shape w _ p h
      · split at h
        · exact errorExit_shape w _ p h
        · split at h
          · exact errorExit_shape w _ p h
          · split at h
            · exact errorExit_shape w _ p h
            · exact errorExit_shape w _ p h
            · exact errorExit_shape w _ p h
            · exact PResult.noConfusion h
            · split at h <;>
                (simp only [PResult.exited.injEq] at h; subst h; simp at hcode)

/-- Witness for C2: a bare `tokenoptimizer` run with nothing configured
fails with the missing-credential error in exactly the stated shape. -/
theorem claim_C2_amended_witness :
    (⟨"", "error: " ++ noKeyMsg ++ "\n", 1, none⟩ : Proc).stdout = "" ∧
    ∃ m, (⟨"", "error: " ++ noKeyMsg ++ "\n", 1, none⟩ : Proc).stderr =
        "error: " ++ m ++ "\n" ∨
      (⟨"", "error: " ++ noKeyMsg ++ "\n", 1, none⟩ : Proc).stderr =
        "Enter your API key: error: " ++ m ++ "\n" :=
  claim_C2_amended w0 (.optimize defaultArgs)
    ⟨"", "error: " ++ noKeyMsg ++ "\n", 1, none⟩ (by decide) rfl (by decide)

/-- Counterexample to C2 as stated: `tokenoptimizer auth` with no sub-action
exits 1 but prints the usage text to stdout (partial output) and writes no
`error: ` line to stderr at all (stderr is empty). -/
theorem claim_C2_counterexample :
    main w0 (.auth none) = .exited ⟨authHelpText, "", 1, none⟩ ∧
    authHelpText ≠ "" := by
  exact ⟨by decide, by decide⟩

end TO
